import Mathlib

/-!
Verification development for the DC-Motor-Control repository (Arduino/C++).

The relevant C++ sources are shallowly embedded as Lean functions:
  - `UltraSonic.readCM`   from ultraSonic.cpp (v3.0.0)
  - `Motor.setSpeed`, `Motor.stop`, `Motor.brake` from motor.cpp (v2.1.0)
  - `StatusLED.setError`, `StatusLED.update` from led.cpp (v1.0.0)
  - the control loop `loopStep` from main.cpp (v3.0.0)

Machine integers: `unsigned long` timestamps are modelled as `Nat`; the C
expression `now - last` on `unsigned long` equals `(now - last) % 2^32`
(Nat subtraction) whenever `last <= now < last + 2^32`, which holds for a
monotone millisecond clock between wraps; theorems that depend on elapsed
time carry those side conditions. `int` values are modelled as `Int`, with
C truncating division made explicit (`cdivPos`).
-/

/-- C `unsigned long` subtraction `now - last` (32-bit wraparound), valid for
raw monotone times with `last ≤ now < last + 2^32`. -/
def elapsed32 (now last : Nat) : Nat :=
  (now - last) % 4294967296

/-- C integer division truncates toward zero; for a positive divisor `b` this
is `a / b` on magnitudes with the sign of `a` reattached. -/
def cdivPos (a : Int) (b : Nat) : Int :=
  if 0 ≤ a then ((a.toNat / b : Nat) : Int) else -(((-a).toNat / b : Nat) : Int)

/-- Arduino `constrain(x, lo, hi)`: `lo` if `x < lo`, `hi` if `x > hi`, else `x`. -/
def constrainI (x lo hi : Int) : Int :=
  if x < lo then lo else if x > hi then hi else x

namespace UltraSonic

/-- Minimum time between trigger events in ms (`MIN_INTERVAL_MS`, ultraSonic.h v3.0.0). -/
def MIN_INTERVAL_MS : Nat := 50

/-- The sensor's internal state: timestamp of the last completed measurement
and the last stable validated distance (ultraSonic.h v3.0.0 private fields). -/
structure State where
  lastReadMs : Nat
  lastDistance : Int
  deriving DecidableEq, Repr

/-- `UltraSonic::readCM` (ultraSonic.cpp v3.0.0). Inputs: the current state,
`now = millis()`, and `duration`: the echo pulse width in µs that `pulseIn`
would report if a trigger pulse were emitted (0 on timeout). Output:
(returned distance in cm, new state, whether a trigger pulse was emitted).
`pulseIn`'s 30 ms timeout bounds `duration` well below `INT_MAX`, so the C
`static_cast<int>(duration / 58UL)` is the exact value `duration / 58`. -/
def readCM (st : State) (now : Nat) (duration : Nat) : Int × State × Bool :=
  if elapsed32 now st.lastReadMs < MIN_INTERVAL_MS then
    (st.lastDistance, st, false)
  else
    let st1 := { st with lastReadMs := now }
    if duration = 0 then
      (0, { st1 with lastDistance := 0 }, true)
    else
      let dist : Int := ((duration / 58 : Nat) : Int)
      if dist < 2 ∨ dist > 400 then
        (0, { st1 with lastDistance := 0 }, true)
      else
        (dist, { st1 with lastDistance := dist }, true)

end UltraSonic

namespace Motor

/-- `DEAD_BAND_PERCENT` (motor.h v2.1.0): commands with `|percent| < 3` are
treated as 0. -/
def DEAD_BAND_PERCENT : Int := 3

/-- The motor's observable state: the cached last commanded percent and the
duty currently driven on the two L293D input lines IN1/IN2 (0 = LOW,
1..255 = PWM duty from `analogWrite`). -/
structure State where
  lastCommandPercent : Int
  in1 : Int
  in2 : Int
  deriving DecidableEq, Repr

/-- `Motor::applyOutputs` (motor.cpp): `pwmValue ≤ 0` coasts (both lines LOW);
otherwise the line selected by `forward` carries the duty, the other is LOW. -/
def applyOutputs (st : State) (pwmValue : Int) (forward : Bool) : State :=
  if pwmValue ≤ 0 then { st with in1 := 0, in2 := 0 }
  else if forward then { st with in1 := pwmValue, in2 := 0 }
  else { st with in1 := 0, in2 := pwmValue }

/-- Arduino `map(magnitude, 1, 100, 1, 255)` as used by `Motor::setSpeed`:
`(magnitude - 1) * 254 / 99 + 1` with C truncating division. -/
def dutyMap (magnitude : Int) : Int :=
  cdivPos ((magnitude - 1) * 254) 99 + 1

/-- The input sanitization of `Motor::setSpeed` (motor.cpp lines 60-66):
`constrain` to [-100,100], then the deadband around zero. -/
def coerce (percent : Int) : Int :=
  let p1 := constrainI percent (-100) 100
  if |p1| < DEAD_BAND_PERCENT then 0 else p1

/-- `Motor::setSpeed` (motor.cpp v2.1.0): clamp to [-100,100], deadband,
redundant-write suppression, then coast or directional PWM. -/
def setSpeed (st : State) (percent : Int) : State :=
  let p2 := coerce percent
  if p2 = st.lastCommandPercent then st
  else
    let st1 := { st with lastCommandPercent := p2 }
    if p2 = 0 then applyOutputs st1 0 true
    else applyOutputs st1 (dutyMap |p2|) (p2 > 0)

/-- `Motor::setSpeed` with the redundant-write suppression guard removed
(the variant the spec says is observationally equivalent, for C9). -/
def setSpeedNoGuard (st : State) (percent : Int) : State :=
  let p2 := coerce percent
  let st1 := { st with lastCommandPercent := p2 }
  if p2 = 0 then applyOutputs st1 0 true
  else applyOutputs st1 (dutyMap |p2|) (p2 > 0)

/-- `Motor::stop` (motor.cpp): record 0 and coast. -/
def stop (st : State) : State :=
  applyOutputs { st with lastCommandPercent := 0 } 0 true

/-- `Motor::brake` (motor.cpp): record 0 and drive both inputs LOW (with EN
tied high this is electrical braking; the line states are both 0). -/
def brake (st : State) : State :=
  { st with lastCommandPercent := 0, in1 := 0, in2 := 0 }

/-- The line duties that correspond to a coerced command `c` (what
`setSpeed` writes when it does write). -/
def linesFor (c : Int) : Int × Int :=
  if c = 0 then (0, 0)
  else if c > 0 then (dutyMap c, 0)
  else (0, dutyMap (-c))

/-- Motor invariant: the coerced command is in range, outside the open
deadband, and the lines reflect it. Established by `begin()` (which calls
`stop()`) and preserved by every public operation. -/
def Inv (st : State) : Prop :=
  (st.in1, st.in2) = linesFor st.lastCommandPercent ∧
  -100 ≤ st.lastCommandPercent ∧ st.lastCommandPercent ≤ 100 ∧
  (st.lastCommandPercent = 0 ∨ DEAD_BAND_PERCENT ≤ |st.lastCommandPercent|)

instance : DecidablePred Inv := fun st => by
  unfold Inv; infer_instance

/-- The motor state right after `Motor::begin()` (which calls `stop()`). -/
def initState : State := ⟨0, 0, 0⟩

/-- One public motor operation, for whole-trace statements. -/
inductive Cmd where
  | speed (percent : Int)
  | stop
  | brake
  deriving DecidableEq, Repr

/-- Run a sequence of public operations through the guarded implementation. -/
def runG (st : State) : List Cmd → State
  | [] => st
  | Cmd.speed p :: rest => runG (setSpeed st p) rest
  | Cmd.stop :: rest => runG (Motor.stop st) rest
  | Cmd.brake :: rest => runG (Motor.brake st) rest

/-- Run a sequence of public operations with the guard removed from `setSpeed`. -/
def runNG (st : State) : List Cmd → State
  | [] => st
  | Cmd.speed p :: rest => runNG (setSpeedNoGuard st p) rest
  | Cmd.stop :: rest => runNG (Motor.stop st) rest
  | Cmd.brake :: rest => runNG (Motor.brake st) rest

end Motor

namespace StatusLED

/-- Timing and brightness constants from led.h. -/
def STEP_INTERVAL_MS : Nat := 20

/-- Special-blink half period (`BLINK_HALF_PERIOD_MS`, led.h). -/
def BLINK_HALF_PERIOD_MS : Nat := 125

/-- Error-blink half period (`ERROR_BLINK_MS`, led.h). -/
def ERROR_BLINK_MS : Nat := 500

/-- `MAX_BRIGHTNESS` (led.h). -/
def MAX_BRIGHTNESS : Nat := 255

/-- `DIM_BRIGHTNESS` (led.h). -/
def DIM_BRIGHTNESS : Nat := 60

/-- `COLOR_TRANSITION_THRESHOLD` (led.h): gradient midpoint. -/
def COLOR_TRANSITION_THRESHOLD : Int := 50

/-- The StatusLED's internal state (led.h v1.0.0 private fields). -/
structure State where
  currentPercent : Int
  targetPercent : Int
  lastCommand : Int
  blinkingToZero : Bool
  lastBlinkState : Bool
  errorActive : Bool
  errorBlinkOn : Bool
  lastStepMs : Nat
  lastBlinkMs : Nat
  lastErrorBlinkMs : Nat
  deriving DecidableEq, Repr

/-- The LED state right after construction / `begin()` (all fields
zero-initialized per led.h). -/
def initState : State := ⟨0, 0, 0, false, false, false, false, 0, 0, 0⟩

/-- An RGB triple as passed to `setRGB` (each channel 0..255). -/
abbrev RGB := Nat × Nat × Nat

/-- `StatusLED::setError` (led.cpp): entering error mode (active and not
already active) resets the error-blink timing; the flag is then recorded. -/
def setError (st : State) (active : Bool) (now : Nat) : State :=
  let st1 :=
    if active && !st.errorActive then
      { st with lastErrorBlinkMs := now, errorBlinkOn := false }
    else st
  { st1 with errorActive := active }

/-- The gradient color for a given `currentPercent` (led.cpp lines 93-109).
The C code computes the ramping channel through `float` arithmetic
(`255 * (cp / 50.0f)` truncated to `uint8_t`); it is modelled here with exact
integer arithmetic `255 * cp / 50`. Every claim evaluates this map only at
`currentPercent = 0`, where the float computation is exact and the two agree.
Reachable states keep `currentPercent` within [0,100]; `Int.toNat` totalizes
the embedding outside that range. -/
def gradientColor (cp : Int) : Nat × Nat :=
  if cp ≤ COLOR_TRANSITION_THRESHOLD then
    (MAX_BRIGHTNESS, MAX_BRIGHTNESS * cp.toNat / 50)
  else
    (MAX_BRIGHTNESS * (100 - cp).toNat / 50, MAX_BRIGHTNESS)

/-- `StatusLED::update` (led.cpp v1.0.0). Inputs: state, commanded percent,
`now = millis()`. Output: new state and the RGB triple written by `setRGB`. -/
def update (st : State) (commandedPercent : Int) (now : Nat) : State × RGB :=
  if st.errorActive then
    let st1 :=
      if elapsed32 now st.lastErrorBlinkMs ≥ ERROR_BLINK_MS then
        { st with lastErrorBlinkMs := now, errorBlinkOn := !st.errorBlinkOn }
      else st
    let b := if st1.errorBlinkOn then MAX_BRIGHTNESS else 0
    (st1, (0, 0, b))
  else
    let cmd := constrainI commandedPercent 0 100
    let st1 :=
      if cmd ≠ st.targetPercent then
        { st with
            blinkingToZero := decide (st.lastCommand = 50 ∧ cmd = 0),
            targetPercent := cmd,
            lastCommand := cmd }
      else st
    let st2 :=
      if elapsed32 now st1.lastStepMs ≥ STEP_INTERVAL_MS then
        { st1 with
            lastStepMs := now,
            currentPercent :=
              if st1.currentPercent < st1.targetPercent then st1.currentPercent + 1
              else if st1.currentPercent > st1.targetPercent then st1.currentPercent - 1
              else st1.currentPercent }
      else st1
    let rg := gradientColor st2.currentPercent
    if st2.blinkingToZero && decide (st2.currentPercent > 0) then
      let st3 :=
        if elapsed32 now st2.lastBlinkMs ≥ BLINK_HALF_PERIOD_MS then
          { st2 with lastBlinkMs := now, lastBlinkState := !st2.lastBlinkState }
        else st2
      let scale := if st3.lastBlinkState then MAX_BRIGHTNESS else DIM_BRIGHTNESS
      (st3, (rg.1 * scale / MAX_BRIGHTNESS, rg.2 * scale / MAX_BRIGHTNESS, 0))
    else
      (st2, (rg.1, rg.2, 0))

end StatusLED

namespace ControlLoop

/-- Control parameters (main.cpp v3.0.0). -/
def UPDATE_INTERVAL_MS : Nat := 10

/-- Stop dwell before reversing (`STOP_TIME_MS`, main.cpp). -/
def STOP_TIME_MS : Nat := 500

/-- Reverse dwell (`REVERSE_TIME_MS`, main.cpp). -/
def REVERSE_TIME_MS : Nat := 200

/-- Near threshold: distance where commanded = 0% (`MIN_DIST_CM`, main.cpp). -/
def MIN_DIST_CM : Int := 5

/-- Far threshold: distance where commanded = 100% (`MAX_DIST_CM`, main.cpp). -/
def MAX_DIST_CM : Int := 60

/-- The maneuver state enumeration `MotorMode` (main.cpp). -/
inductive MotorMode where
  | NORMAL
  | STOPPING
  | REVERSING
  | SLOW_FORWARD
  deriving DecidableEq, Repr

/-- The control loop's mutable globals (main.cpp): maneuver mode, the time
its current mode was entered, the last paced-update time, and the last
resolved speed. -/
structure State where
  motorMode : MotorMode
  modeStartMs : Nat
  lastUpdateMs : Nat
  lastSpeedPct : Int
  deriving DecidableEq, Repr

/-- The loop state right after `setup()` ran at millis() = 0. -/
def initState : State := ⟨MotorMode.NORMAL, 0, 0, 100⟩

/-- Arduino `map(x, in_min, in_max, out_min, out_max)` with C truncating
long division: `(x - in_min) * (out_max - out_min) / (in_max - in_min) + out_min`. -/
def arduinoMap (x inMin inMax outMin outMax : Int) : Int :=
  cdivPos ((x - inMin) * (outMax - outMin)) (inMax - inMin).toNat + outMin

/-- The near-regime speed computation (main.cpp lines 162-174): dynamic
mapping via `map(distance, MIN_DIST_CM, MAX_DIST_CM, 0, 100)`, 2%
quantization, `constrain` to [0,100], then the close-range and
sentinel overrides, in source order. -/
def nearSpeed (distance : Int) : Int :=
  let sp0 := arduinoMap distance MIN_DIST_CM MAX_DIST_CM 0 100
  let sp1 := cdivPos sp0 2 * 2
  let sp2 := constrainI sp1 0 100
  let sp3 := if distance ≤ MIN_DIST_CM then 0 else sp2
  if distance = 0 then 100 else sp3

/-- One `loop()` iteration (main.cpp lines 83-187), with the distance that
`usonic.readCM()` returned this tick passed in as `distance`. Output: the
updated globals and `some speedPct` (the resolved speed fed to the motor,
LED and display), or `none` when the 10 ms pacing gate skips the tick. -/
def loopStep (st : State) (now : Nat) (distance : Int) : State × Option Int :=
  if elapsed32 now st.lastUpdateMs < UPDATE_INTERVAL_MS then (st, none)
  else
    let st := { st with lastUpdateMs := now }
    if distance ≥ MAX_DIST_CM then
      match st.motorMode with
      | MotorMode.NORMAL =>
          ({ st with motorMode := MotorMode.STOPPING, modeStartMs := now,
                     lastSpeedPct := 0 }, some 0)
      | MotorMode.STOPPING =>
          if elapsed32 now st.modeStartMs ≥ STOP_TIME_MS then
            ({ st with motorMode := MotorMode.REVERSING, modeStartMs := now,
                       lastSpeedPct := 0 }, some 0)
          else
            ({ st with lastSpeedPct := 0 }, some 0)
      | MotorMode.REVERSING =>
          if elapsed32 now st.modeStartMs ≥ REVERSE_TIME_MS then
            ({ st with motorMode := MotorMode.SLOW_FORWARD, modeStartMs := now,
                       lastSpeedPct := -20 }, some (-20))
          else
            ({ st with lastSpeedPct := -20 }, some (-20))
      | MotorMode.SLOW_FORWARD =>
          -- the source also re-checks `distance < MAX_DIST_CM` here; inside
          -- this branch that test is always false, kept for faithfulness
          let m := if distance < MAX_DIST_CM then MotorMode.NORMAL
                   else MotorMode.SLOW_FORWARD
          ({ st with motorMode := m, lastSpeedPct := 20 }, some 20)
    else
      let sp := nearSpeed distance
      ({ st with motorMode := MotorMode.NORMAL, modeStartMs := now,
                 lastSpeedPct := sp }, some sp)

/-- Run the loop over a list of `(millis, distance)` ticks; collect the
resolved speed and the post-tick maneuver mode of every non-skipped tick. -/
def runLoop (st : State) : List (Nat × Int) → State × List Int × List MotorMode
  | [] => (st, [], [])
  | (now, d) :: rest =>
      let r := loopStep st now d
      let rec2 := runLoop r.1 rest
      match r.2 with
      | none => rec2
      | some sp => (rec2.1, sp :: rec2.2.1, r.1.motorMode :: rec2.2.2)

/-- The near-regime speed as the spec's words describe it (claim C2):
linear map of d from [5,60] onto [0,100], rounded down to an even value,
clamped to [0,100]; d ≤ 5 forces 0 and the sentinel d = 0 forces 100. -/
def specNearSpeed (d : Nat) : Int :=
  if d = 0 then 100
  else if d ≤ 5 then 0
  else min 100 (max 0 (2 * ((((d : Int) - 5) * 100 / 55) / 2)))

/-- The round-trip scenario ticks (spec §8): per-tick distances
[70, 70, 70, 70, 40], with the third tick arriving 500 ms and the fourth
700 ms after the STOPPING state was entered (which the first tick causes
at millis() = 10), and every tick passing the 10 ms pacing gate. -/
def roundTripTicks : List (Nat × Int) :=
  [(10, 70), (20, 70), (510, 70), (710, 70), (720, 40)]

end ControlLoop

/-!  Theorems: one per claim of the specification, with helper lemmas and
witnesses alongside. -/

/-- C1 counterexample: on the round-trip scenario the loop does NOT emit the
claimed speed sequence [0, 0, -20, 20, 62] (62 being the near-regime
interpolated value for 40 cm): the tick that completes the 500 ms stop dwell
still emits speed 0, so the actual sequence is [0, 0, 0, -20, 62]. -/
theorem c1_claimed_speed_sequence_false :
    (ControlLoop.runLoop ControlLoop.initState ControlLoop.roundTripTicks).2.1 ≠
      [0, 0, -20, 20, 62] := by
  decide

/-- C1 (amended): the round-trip scenario produces the resolved speed
sequence [0, 0, 0, -20, 62] — a tick that completes a dwell still emits the
expiring state's speed, the reverse speed -20 first appears on the following
tick, and the creep speed 20 is never emitted because the fifth reading is
already below the far threshold — while the state transitions are
NORMAL→STOPPING→STOPPING→REVERSING→SLOW_FORWARD→NORMAL exactly as claimed. -/
theorem c1_round_trip_amended :
    (ControlLoop.runLoop ControlLoop.initState ControlLoop.roundTripTicks).2.1 =
      [0, 0, 0, -20, 62] ∧
    (ControlLoop.runLoop ControlLoop.initState ControlLoop.roundTripTicks).2.2 =
      [ControlLoop.MotorMode.STOPPING, ControlLoop.MotorMode.STOPPING,
       ControlLoop.MotorMode.REVERSING, ControlLoop.MotorMode.SLOW_FORWARD,
       ControlLoop.MotorMode.NORMAL] := by
  constructor <;> decide

/-- Helper for C2: on every distance below the far threshold, the code's
near-regime computation agrees with the spec's interpolation formula. -/
theorem nearSpeed_eq_specNearSpeed (d : Nat) (hd : d < 60) :
    ControlLoop.nearSpeed (d : Int) = ControlLoop.specNearSpeed d := by
  revert hd
  revert d
  decide

/-- C2: on any tick that passes the 10 ms pacing gate and whose acquired
distance d satisfies 0 ≤ d < 60, the loop forces the maneuver state to
NORMAL regardless of the previous state, and the resolved speed is the
integer linear map of d from [5,60] onto [0,100] rounded down to an even
value and clamped to [0,100], except that d ≤ 5 forces 0 and the sentinel
d = 0 forces 100. -/
theorem c2_near_regime (st : ControlLoop.State) (now : Nat) (d : Nat)
    (hd : d < 60)
    (hgate : ControlLoop.UPDATE_INTERVAL_MS ≤ elapsed32 now st.lastUpdateMs) :
    (ControlLoop.loopStep st now (d : Int)).1.motorMode = ControlLoop.MotorMode.NORMAL ∧
    (ControlLoop.loopStep st now (d : Int)).2 = some (ControlLoop.specNearSpeed d) := by
  have hskip : ¬ (elapsed32 now st.lastUpdateMs < ControlLoop.UPDATE_INTERVAL_MS) :=
    not_lt.mpr hgate
  have hfar : ¬ ((d : Int) ≥ ControlLoop.MAX_DIST_CM) := by
    show ¬ ((d : Int) ≥ 60)
    omega
  unfold ControlLoop.loopStep
  rw [if_neg hskip, if_neg hfar]
  exact ⟨rfl, by rw [nearSpeed_eq_specNearSpeed d hd]⟩

/-- C2 witness: concrete instantiation at distance 40 from the initial loop
state at millis() = 10. -/
theorem c2_near_regime_witness :
    (40 : Nat) < 60 ∧
    ControlLoop.UPDATE_INTERVAL_MS ≤ elapsed32 10 ControlLoop.initState.lastUpdateMs ∧
    (ControlLoop.loopStep ControlLoop.initState 10 (40 : Nat)).1.motorMode =
      ControlLoop.MotorMode.NORMAL ∧
    (ControlLoop.loopStep ControlLoop.initState 10 (40 : Nat)).2 =
      some (ControlLoop.specNearSpeed 40) :=
  ⟨by decide, by decide,
    c2_near_regime ControlLoop.initState 10 40 (by decide) (by decide)⟩

/-- Helper: a call inside the rate-limit window returns the cached reading
and touches nothing. -/
theorem readCM_cached (s : UltraSonic.State) (now d : Nat)
    (h : elapsed32 now s.lastReadMs < UltraSonic.MIN_INTERVAL_MS) :
    UltraSonic.readCM s now d = (s.lastDistance, s, false) := by
  unfold UltraSonic.readCM
  rw [if_pos h]

/-- Helper: a call that performs a measurement stamps `lastReadMs` with the
call time and records exactly the value it returns in `lastDistance`. -/
theorem readCM_measured_state (s : UltraSonic.State) (now d : Nat)
    (h : UltraSonic.MIN_INTERVAL_MS ≤ elapsed32 now s.lastReadMs) :
    (UltraSonic.readCM s now d).2.1.lastReadMs = now ∧
    (UltraSonic.readCM s now d).2.1.lastDistance = (UltraSonic.readCM s now d).1 := by
  have hskip : ¬ elapsed32 now s.lastReadMs < UltraSonic.MIN_INTERVAL_MS := not_lt.mpr h
  simp only [UltraSonic.readCM, if_neg hskip]
  split_ifs <;> exact ⟨rfl, rfl⟩

/-- C3: whenever `readCM` performs a physical measurement (the rate-limit
window has passed), an echo duration d > 0 with floor(d/58) in [2,400]
yields exactly floor(d/58) centimeters (returned and recorded), while a
timeout (d = 0) or a converted value outside [2,400] returns and records
the sentinel 0 instead of the physical value. -/
theorem c3_readCM_conversion (st : UltraSonic.State) (now dur : Nat)
    (hmeas : UltraSonic.MIN_INTERVAL_MS ≤ elapsed32 now st.lastReadMs) :
    (0 < dur → 2 ≤ dur / 58 → dur / 58 ≤ 400 →
      (UltraSonic.readCM st now dur).1 = ((dur / 58 : Nat) : Int) ∧
      (UltraSonic.readCM st now dur).2.1.lastDistance = ((dur / 58 : Nat) : Int)) ∧
    (dur = 0 ∨ dur / 58 < 2 ∨ 400 < dur / 58 →
      (UltraSonic.readCM st now dur).1 = 0 ∧
      (UltraSonic.readCM st now dur).2.1.lastDistance = 0) := by
  have hskip : ¬ elapsed32 now st.lastReadMs < UltraSonic.MIN_INTERVAL_MS :=
    not_lt.mpr hmeas
  simp only [UltraSonic.readCM, if_neg hskip]
  constructor
  · intro h0 h2 h400
    rw [if_neg (by omega), if_neg (by push_cast; omega)]
    exact ⟨rfl, rfl⟩
  · intro h
    by_cases hd : dur = 0
    · rw [if_pos hd]
      exact ⟨rfl, rfl⟩
    · rw [if_neg hd, if_pos (by push_cast; omega)]
      exact ⟨rfl, rfl⟩

/-- C3 witness: a 580 µs echo 50 ms after the last measurement reads 10 cm;
a timed-out echo reads and records 0. -/
theorem c3_readCM_conversion_witness :
    UltraSonic.MIN_INTERVAL_MS ≤ elapsed32 50 (UltraSonic.State.mk 0 0).lastReadMs ∧
    (UltraSonic.readCM ⟨0, 0⟩ 50 580).1 = 10 ∧
    (UltraSonic.readCM ⟨0, 7⟩ 50 0).1 = 0 ∧
    (UltraSonic.readCM ⟨0, 7⟩ 50 0).2.1.lastDistance = 0 :=
  ⟨by decide,
   ((c3_readCM_conversion ⟨0, 0⟩ 50 580 (by decide)).1 (by decide) (by decide)
      (by decide)).1.trans (by decide),
   (c3_readCM_conversion ⟨0, 7⟩ 50 0 (by decide)).2 (Or.inl rfl)⟩

/-- C6 counterexample: two `readCM` calls spaced 11 ms apart (at 49 ms and
60 ms, starting from lastReadMs = 0, lastDistance = 7) where the SECOND call
emits a trigger pulse, returns 10 ≠ 7, and rewrites the internal state: the
first call was itself rate-limited, so the 50 ms window (anchored at the last
trigger, not at the last call) had already expired at the second call. -/
theorem c6_spacing_counterexample :
    60 - 49 < UltraSonic.MIN_INTERVAL_MS ∧
    (UltraSonic.readCM ⟨0, 7⟩ 49 580).1 = 7 ∧
    (UltraSonic.readCM ⟨0, 7⟩ 49 580).2.2 = false ∧
    (UltraSonic.readCM (UltraSonic.readCM ⟨0, 7⟩ 49 580).2.1 60 580).2.2 = true ∧
    (UltraSonic.readCM (UltraSonic.readCM ⟨0, 7⟩ 49 580).2.1 60 580).1 ≠
      (UltraSonic.readCM ⟨0, 7⟩ 49 580).1 ∧
    (UltraSonic.readCM (UltraSonic.readCM ⟨0, 7⟩ 49 580).2.1 60 580).2.1 ≠
      (UltraSonic.readCM ⟨0, 7⟩ 49 580).2.1 := by
  decide

/-- C6 (amended): for every pair of `readCM` calls where the FIRST call
performs a physical measurement and the second comes less than 50 ms after
it, the second call returns exactly the first call's result, emits no
trigger pulse, and leaves the sensor state (lastReadMs, lastDistance)
completely unchanged. -/
theorem c6_rate_limit_amended (st : UltraSonic.State) (t1 t2 d1 d2 : Nat)
    (hmeas : UltraSonic.MIN_INTERVAL_MS ≤ elapsed32 t1 st.lastReadMs)
    (_hle : t1 ≤ t2) (hlt : t2 - t1 < UltraSonic.MIN_INTERVAL_MS) :
    UltraSonic.readCM (UltraSonic.readCM st t1 d1).2.1 t2 d2 =
      ((UltraSonic.readCM st t1 d1).1, (UltraSonic.readCM st t1 d1).2.1, false) := by
  obtain ⟨hstamp, hrec⟩ := readCM_measured_state st t1 d1 hmeas
  have hwin : elapsed32 t2 (UltraSonic.readCM st t1 d1).2.1.lastReadMs <
      UltraSonic.MIN_INTERVAL_MS := by
    rw [hstamp]
    unfold elapsed32
    unfold UltraSonic.MIN_INTERVAL_MS at hlt ⊢
    omega
  rw [readCM_cached _ _ _ hwin, hrec]

/-- C6 witness: a measurement at 50 ms (echo 580 µs → 10 cm) followed by a
call 30 ms later: the second call returns 10, triggers nothing, and keeps
the state. -/
theorem c6_rate_limit_amended_witness :
    UltraSonic.MIN_INTERVAL_MS ≤ elapsed32 50 (UltraSonic.State.mk 0 9).lastReadMs ∧
    (50 : Nat) ≤ 80 ∧ 80 - 50 < UltraSonic.MIN_INTERVAL_MS ∧
    UltraSonic.readCM (UltraSonic.readCM ⟨0, 9⟩ 50 580).2.1 80 116 =
      ((UltraSonic.readCM ⟨0, 9⟩ 50 580).1,
       (UltraSonic.readCM ⟨0, 9⟩ 50 580).2.1, false) :=
  ⟨by decide, by decide, by decide,
   c6_rate_limit_amended ⟨0, 9⟩ 50 80 580 116 (by decide) (by decide) (by decide)⟩

/-- Helper: `cdivPos` on a nonnegative dividend is Euclidean division. -/
theorem cdivPos_eq_ediv (a : Int) (b : Nat) (h : 0 ≤ a) :
    cdivPos a b = a / (b : Int) := by
  unfold cdivPos
  rw [if_pos h, Int.ofNat_tdiv, Int.toNat_of_nonneg h,
    Int.tdiv_eq_ediv h (Int.ofNat_nonneg b)]

/-- Helper: the duty map in closed Euclidean form for magnitudes ≥ 1. -/
theorem dutyMap_eq (m : Int) (h : 1 ≤ m) :
    Motor.dutyMap m = (m - 1) * 254 / 99 + 1 := by
  unfold Motor.dutyMap
  rw [cdivPos_eq_ediv _ _ (mul_nonneg (by omega) (by norm_num))]
  norm_num

/-- Helper: the sanitized command is in [-100,100] and never inside the open
deadband. -/
theorem coerce_spec (p : Int) :
    -100 ≤ Motor.coerce p ∧ Motor.coerce p ≤ 100 ∧
    (Motor.coerce p = 0 ∨ Motor.DEAD_BAND_PERCENT ≤ |Motor.coerce p|) := by
  simp only [Motor.coerce, constrainI, Motor.DEAD_BAND_PERCENT, abs_lt, le_abs]
  split_ifs <;> omega

/-- Helper: a command already inside the deadband is sanitized to 0. -/
theorem coerce_deadband (p : Int) (h : |p| < Motor.DEAD_BAND_PERCENT) :
    Motor.coerce p = 0 := by
  rw [abs_lt] at h
  simp only [Motor.coerce, constrainI, Motor.DEAD_BAND_PERCENT, abs_lt]
  unfold Motor.DEAD_BAND_PERCENT at h
  split_ifs <;> omega

/-- Helper: a command in [deadband, 100] passes through sanitization intact. -/
theorem coerce_id_of_mem (p : Int) (h3 : Motor.DEAD_BAND_PERCENT ≤ p) (h100 : p ≤ 100) :
    Motor.coerce p = p := by
  unfold Motor.DEAD_BAND_PERCENT at h3
  simp only [Motor.coerce, constrainI, Motor.DEAD_BAND_PERCENT, abs_lt]
  split_ifs <;> omega

/-- Helper: `setSpeedNoGuard` always re-establishes the motor invariant. -/
theorem setSpeedNoGuard_inv (st : Motor.State) (p : Int) :
    Motor.Inv (Motor.setSpeedNoGuard st p) := by
  obtain ⟨hlo, hhi, hdead⟩ := coerce_spec p
  unfold Motor.setSpeedNoGuard
  by_cases h0 : Motor.coerce p = 0
  · rw [if_pos h0]
    unfold Motor.Inv Motor.applyOutputs Motor.linesFor
    simp [h0]
  · rw [if_neg h0]
    rcases hdead with hdead | hdead
    · exact absurd hdead h0
    rcases lt_trichotomy (Motor.coerce p) 0 with hneg | hz | hpos
    · have habs : |Motor.coerce p| = -Motor.coerce p := abs_of_neg hneg
      have hduty : 1 ≤ Motor.dutyMap (-Motor.coerce p) := by
        rw [dutyMap_eq _ (by omega)]
        omega
      unfold Motor.applyOutputs
      rw [habs, if_neg (by omega), if_neg (by simp [hneg, not_lt.mpr hneg.le])]
      unfold Motor.Inv Motor.linesFor
      simp only
      rw [if_neg h0, if_neg (by omega)]
      refine ⟨rfl, by omega, by omega, Or.inr ?_⟩
      rw [habs]
      omega
    · exact absurd hz h0
    · have habs : |Motor.coerce p| = Motor.coerce p := abs_of_pos hpos
      have hduty : 1 ≤ Motor.dutyMap (Motor.coerce p) := by
        rw [dutyMap_eq _ (by omega)]
        omega
      unfold Motor.applyOutputs
      rw [habs, if_neg (by omega), if_pos (by simp [hpos])]
      unfold Motor.Inv Motor.linesFor
      simp only
      rw [if_neg h0, if_pos hpos]
      refine ⟨rfl, by omega, by omega, Or.inr ?_⟩
      rw [habs]
      omega

/-- Helper: under the motor invariant, the redundant-write suppression guard
is invisible: `setSpeed` and its guard-free variant produce the same state. -/
theorem setSpeed_eq_noGuard (st : Motor.State) (p : Int) (h : Motor.Inv st) :
    Motor.setSpeed st p = Motor.setSpeedNoGuard st p := by
  unfold Motor.setSpeed Motor.setSpeedNoGuard
  by_cases hg : Motor.coerce p = st.lastCommandPercent
  · rw [if_pos hg]
    obtain ⟨hlines, _, _, hdead⟩ := h
    obtain ⟨last, i1, i2⟩ := st
    simp only at hlines hdead hg ⊢
    subst hg
    by_cases h0 : Motor.coerce p = 0
    · rw [if_pos h0]
      rw [h0] at hlines
      unfold Motor.linesFor at hlines
      rw [if_pos rfl] at hlines
      obtain ⟨e1, e2⟩ := Prod.mk.injEq .. ▸ hlines
      unfold Motor.applyOutputs
      rw [if_pos le_rfl]
      simp_all
    · rw [if_neg h0]
      rcases hdead with hdead | hdead
      · exact absurd hdead h0
      unfold Motor.linesFor at hlines
      rw [if_neg h0] at hlines
      rcases lt_trichotomy (Motor.coerce p) 0 with hneg | hz | hpos
      · rw [if_neg (by omega)] at hlines
        obtain ⟨e1, e2⟩ := Prod.mk.injEq .. ▸ hlines
        have habs : |Motor.coerce p| = -Motor.coerce p := abs_of_neg hneg
        have hduty : 1 ≤ Motor.dutyMap (-Motor.coerce p) := by
          rw [dutyMap_eq _ (by rw [habs] at hdead; unfold Motor.DEAD_BAND_PERCENT at hdead; omega)]
          omega
        unfold Motor.applyOutputs
        rw [habs, if_neg (by omega), if_neg (by simp [not_lt.mpr hneg.le])]
        simp_all
      · exact absurd hz h0
      · rw [if_pos hpos] at hlines
        obtain ⟨e1, e2⟩ := Prod.mk.injEq .. ▸ hlines
        have habs : |Motor.coerce p| = Motor.coerce p := abs_of_pos hpos
        have hduty : 1 ≤ Motor.dutyMap (Motor.coerce p) := by
          rw [dutyMap_eq _ (by rw [habs] at hdead; unfold Motor.DEAD_BAND_PERCENT at hdead; omega)]
          omega
        unfold Motor.applyOutputs
        rw [habs, if_neg (by omega), if_pos (by simp [hpos])]
        simp_all
  · rw [if_neg hg]

/-- Helper: `stop` drives the motor to the canonical coast state. -/
theorem stop_eq (st : Motor.State) : Motor.stop st = Motor.initState := rfl

/-- Helper: `brake` leaves the same line states as the canonical coast state. -/
theorem brake_eq (st : Motor.State) : Motor.brake st = Motor.initState := rfl

/-- Helper: the initialized motor satisfies the invariant. -/
theorem initState_inv : Motor.Inv Motor.initState := by decide

/-- Helper: guarded and guard-free runs agree (state-for-state) from any
state satisfying the motor invariant. -/
theorem runG_eq_runNG (cmds : List Motor.Cmd) :
    ∀ st : Motor.State, Motor.Inv st → Motor.runG st cmds = Motor.runNG st cmds := by
  induction cmds with
  | nil => intro st _; rfl
  | cons c rest ih =>
      intro st h
      cases c with
      | speed p =>
          show Motor.runG (Motor.setSpeed st p) rest = Motor.runNG (Motor.setSpeedNoGuard st p) rest
          rw [setSpeed_eq_noGuard st p h]
          exact ih _ (setSpeedNoGuard_inv st p)
      | stop =>
          show Motor.runG (Motor.stop st) rest = Motor.runNG (Motor.stop st) rest
          rw [stop_eq]
          exact ih _ initState_inv
      | brake =>
          show Motor.runG (Motor.brake st) rest = Motor.runNG (Motor.brake st) rest
          rw [brake_eq]
          exact ih _ initState_inv

/-- C9: `Motor::setSpeed` with the redundant-write suppression guard is
observationally equivalent to the guard-free variant: every sequence of
setSpeed/stop/brake calls on the initialized motor leaves the two drive
lines (and in fact the whole motor state) identical under both versions. -/
theorem c9_guard_equivalence (cmds : List Motor.Cmd) :
    (Motor.runG Motor.initState cmds).in1 = (Motor.runNG Motor.initState cmds).in1 ∧
    (Motor.runG Motor.initState cmds).in2 = (Motor.runNG Motor.initState cmds).in2 := by
  rw [runG_eq_runNG cmds Motor.initState initState_inv]
  exact ⟨rfl, rfl⟩

/-- C5: any commanded percent inside the deadband (|p| < 3), of either sign,
leaves both drive lines at duty 0 (coast). -/
theorem c5_deadband_coast (st : Motor.State) (p : Int)
    (hinv : Motor.Inv st) (hp : |p| < Motor.DEAD_BAND_PERCENT) :
    (Motor.setSpeed st p).in1 = 0 ∧ (Motor.setSpeed st p).in2 = 0 := by
  rw [setSpeed_eq_noGuard st p hinv]
  unfold Motor.setSpeedNoGuard
  rw [coerce_deadband p hp, if_pos rfl]
  exact ⟨rfl, rfl⟩

/-- C5 witness: commanded -2 on the initialized motor coasts. -/
theorem c5_deadband_coast_witness :
    Motor.Inv Motor.initState ∧ |(-2 : Int)| < Motor.DEAD_BAND_PERCENT ∧
    (Motor.setSpeed Motor.initState (-2)).in1 = 0 ∧
    (Motor.setSpeed Motor.initState (-2)).in2 = 0 :=
  ⟨by decide, by decide, c5_deadband_coast Motor.initState (-2) (by decide) (by decide)⟩

/-- C4 counterexample: the commanded percent 1 lies in [1,100] yet the motor
does NOT apply a strictly positive duty: after running at 50%, commanding 1%
actively writes duty 0 to both lines, because the deadband (threshold 3)
coerces 1 to 0 before the duty map is ever consulted. -/
theorem c4_low_command_counterexample :
    (Motor.setSpeed Motor.initState 50).in1 = 126 ∧
    (Motor.setSpeed (Motor.setSpeed Motor.initState 50) 1).in1 = 0 ∧
    (Motor.setSpeed (Motor.setSpeed Motor.initState 50) 1).in2 = 0 := by
  decide

/-- C4 (amended): for every commanded percent p with 3 ≤ p ≤ 100 (at or
above the deadband), `setSpeed` applies the strictly positive duty
`map(p,1,100,1,255)` on the forward line, that duty is ≥ 1, and the duty is
strictly increasing in p over [3,100]; percents 1 and 2 are instead coerced
to 0 by the deadband and coast. -/
theorem c4_duty_amended :
    (∀ p q : Int, Motor.DEAD_BAND_PERCENT ≤ p → p < q → q ≤ 100 →
      Motor.dutyMap p < Motor.dutyMap q) ∧
    (∀ (st : Motor.State) (p : Int), Motor.Inv st →
      Motor.DEAD_BAND_PERCENT ≤ p → p ≤ 100 →
      (Motor.setSpeed st p).in1 = Motor.dutyMap p ∧
      1 ≤ Motor.dutyMap p ∧ (Motor.setSpeed st p).in2 = 0) := by
  constructor
  · intro p q hp hpq _
    unfold Motor.DEAD_BAND_PERCENT at hp
    rw [dutyMap_eq p (by omega), dutyMap_eq q (by omega)]
    omega
  · intro st p hinv hp h100
    unfold Motor.DEAD_BAND_PERCENT at hp
    have hduty : 1 ≤ Motor.dutyMap p := by
      rw [dutyMap_eq p (by omega)]
      omega
    rw [setSpeed_eq_noGuard st p hinv]
    unfold Motor.setSpeedNoGuard
    rw [coerce_id_of_mem p (by unfold Motor.DEAD_BAND_PERCENT; omega) h100,
      if_neg (by omega)]
    unfold Motor.applyOutputs
    rw [abs_of_pos (by omega), if_neg (by omega), if_pos (by simp; omega)]
    exact ⟨rfl, hduty, rfl⟩

/-- C4 witness: duties at 3 and 4 are ordered, and commanded 50 on the
initialized motor drives the forward line at duty map(50) = 126 ≥ 1. -/
theorem c4_duty_amended_witness :
    Motor.dutyMap 3 < Motor.dutyMap 4 ∧
    ((Motor.setSpeed Motor.initState 50).in1 = Motor.dutyMap 50 ∧
     1 ≤ Motor.dutyMap 50 ∧ (Motor.setSpeed Motor.initState 50).in2 = 0) :=
  ⟨c4_duty_amended.1 3 4 (by decide) (by decide) (by decide),
   c4_duty_amended.2 Motor.initState 50 (by decide) (by decide) (by decide)⟩

/-- Helper: in error mode with the half-period not yet elapsed, `update`
holds the state and emits the current error-channel level. -/
theorem update_error_hold (s : StatusLED.State) (cmd : Int) (now : Nat)
    (ha : s.errorActive = true)
    (h : elapsed32 now s.lastErrorBlinkMs < StatusLED.ERROR_BLINK_MS) :
    StatusLED.update s cmd now =
      (s, (0, 0, if s.errorBlinkOn then StatusLED.MAX_BRIGHTNESS else 0)) := by
  simp only [StatusLED.update, ha, if_true, if_neg (not_le.mpr h)]

/-- Helper: in error mode with the half-period elapsed, `update` restamps the
blink timer, toggles the channel, and emits the toggled level. -/
theorem update_error_flip (s : StatusLED.State) (cmd : Int) (now : Nat)
    (ha : s.errorActive = true)
    (h : StatusLED.ERROR_BLINK_MS ≤ elapsed32 now s.lastErrorBlinkMs) :
    StatusLED.update s cmd now =
      ({ s with lastErrorBlinkMs := now, errorBlinkOn := !s.errorBlinkOn },
       (0, 0, if !s.errorBlinkOn then StatusLED.MAX_BRIGHTNESS else 0)) := by
  simp only [StatusLED.update, ha, if_true, if_pos h]

/-- Helper: the state produced by entering error mode from a non-error state. -/
theorem setError_enter (st : StatusLED.State) (t : Nat)
    (h : st.errorActive = false) :
    StatusLED.setError st true t =
      { st with lastErrorBlinkMs := t, errorBlinkOn := false, errorActive := true } := by
  simp [StatusLED.setError, h]

/-- C7: a `setError(true)` call entering error mode resets the blink phase
(channel latched off, timer stamped at entry), every update within the first
half-period leaves the state untouched and emits the error channel off, the
first update at least one half-period after entry turns it on, and any two
updates spaced exactly one half-period apart toggle the error channel
exactly once between them. -/
theorem c7_error_entry_blink (st : StatusLED.State) (t : Nat)
    (h : st.errorActive = false) :
    ((StatusLED.setError st true t).errorBlinkOn = false ∧
     (StatusLED.setError st true t).lastErrorBlinkMs = t ∧
     (StatusLED.setError st true t).errorActive = true) ∧
    (∀ (cmd : Int) (now : Nat), elapsed32 now t < StatusLED.ERROR_BLINK_MS →
      StatusLED.update (StatusLED.setError st true t) cmd now =
        (StatusLED.setError st true t, (0, 0, 0))) ∧
    (∀ (cmd : Int) (now : Nat), StatusLED.ERROR_BLINK_MS ≤ elapsed32 now t →
      (StatusLED.update (StatusLED.setError st true t) cmd now).1.errorBlinkOn = true ∧
      (StatusLED.update (StatusLED.setError st true t) cmd now).2 =
        (0, 0, StatusLED.MAX_BRIGHTNESS)) ∧
    (∀ (cmd1 cmd2 : Int) (n1 : Nat), t ≤ n1 →
      n1 + StatusLED.ERROR_BLINK_MS - t < 4294967296 →
      (StatusLED.update
          (StatusLED.update (StatusLED.setError st true t) cmd1 n1).1 cmd2
          (n1 + StatusLED.ERROR_BLINK_MS)).1.errorBlinkOn =
        !(StatusLED.update (StatusLED.setError st true t) cmd1 n1).1.errorBlinkOn) := by
  have he := setError_enter st t h
  refine ⟨by rw [he]; exact ⟨rfl, rfl, rfl⟩, ?_, ?_, ?_⟩
  · intro cmd now hn
    rw [he, update_error_hold _ cmd now rfl hn]
    rfl
  · intro cmd now hn
    rw [he, update_error_flip _ cmd now rfl hn]
    exact ⟨rfl, rfl⟩
  · intro cmd1 cmd2 n1 hn1 hwrap
    rw [he]
    by_cases hcase : StatusLED.ERROR_BLINK_MS ≤ elapsed32 n1 t
    · rw [update_error_flip _ cmd1 n1 rfl hcase]
      dsimp only
      rw [update_error_flip _ cmd2 _ rfl
          (by dsimp only; unfold elapsed32 StatusLED.ERROR_BLINK_MS; omega)]
    · rw [update_error_hold _ cmd1 n1 rfl (not_le.mp hcase)]
      dsimp only
      rw [update_error_flip _ cmd2 _ rfl
          (by
            dsimp only
            unfold StatusLED.ERROR_BLINK_MS at hwrap ⊢
            unfold elapsed32
            omega)]

/-- C7 witness: entering error mode at 0 ms from the initial LED state, an
update at 100 ms holds the channel off, an update at 500 ms turns it on, and
updates at 100 ms and 600 ms toggle the channel exactly once. -/
theorem c7_error_entry_blink_witness :
    StatusLED.initState.errorActive = false ∧
    elapsed32 100 0 < StatusLED.ERROR_BLINK_MS ∧
    StatusLED.update (StatusLED.setError StatusLED.initState true 0) 30 100 =
      (StatusLED.setError StatusLED.initState true 0, (0, 0, 0)) ∧
    StatusLED.ERROR_BLINK_MS ≤ elapsed32 500 0 ∧
    (StatusLED.update (StatusLED.setError StatusLED.initState true 0) 30 500).2 =
      (0, 0, StatusLED.MAX_BRIGHTNESS) ∧
    (StatusLED.update
        (StatusLED.update (StatusLED.setError StatusLED.initState true 0) 30 100).1 30
        (100 + StatusLED.ERROR_BLINK_MS)).1.errorBlinkOn =
      !(StatusLED.update (StatusLED.setError StatusLED.initState true 0) 30 100).1.errorBlinkOn :=
  ⟨rfl, by decide,
   (c7_error_entry_blink StatusLED.initState 0 rfl).2.1 30 100 (by decide),
   by decide,
   ((c7_error_entry_blink StatusLED.initState 0 rfl).2.2.1 30 500 (by decide)).2,
   (c7_error_entry_blink StatusLED.initState 0 rfl).2.2.2 30 30 100 (by decide) (by decide)⟩

/-- Helper: in error mode, `update` can only touch the two error-blink
fields; every gradient/transition field survives, and error mode persists. -/
theorem update_error_frame (s : StatusLED.State) (cmd : Int) (now : Nat)
    (ha : s.errorActive = true) :
    (StatusLED.update s cmd now).1.currentPercent = s.currentPercent ∧
    (StatusLED.update s cmd now).1.targetPercent = s.targetPercent ∧
    (StatusLED.update s cmd now).1.lastCommand = s.lastCommand ∧
    (StatusLED.update s cmd now).1.blinkingToZero = s.blinkingToZero ∧
    (StatusLED.update s cmd now).1.lastStepMs = s.lastStepMs ∧
    (StatusLED.update s cmd now).1.lastBlinkMs = s.lastBlinkMs ∧
    (StatusLED.update s cmd now).1.lastBlinkState = s.lastBlinkState ∧
    (StatusLED.update s cmd now).1.errorActive = true := by
  by_cases hc : StatusLED.ERROR_BLINK_MS ≤ elapsed32 now s.lastErrorBlinkMs
  · rw [update_error_flip s cmd now ha hc]
    exact ⟨rfl, rfl, rfl, rfl, rfl, rfl, rfl, ha⟩
  · rw [update_error_hold s cmd now ha (not_le.mp hc)]
    exact ⟨rfl, rfl, rfl, rfl, rfl, rfl, rfl, ha⟩

/-- C10: while error mode is active, every `update` call leaves the
gradient/transition state (currentPercent, targetPercent, lastCommand,
blinkingToZero, lastStepMs, lastBlinkMs, lastBlinkState) unchanged, and in
particular a commanded 50 → 0 transition fed entirely during error mode is
never recorded: `blinkingToZero` keeps its prior value. -/
theorem c10_error_mode_frame (st : StatusLED.State) (cmd : Int)
    (now n1 n2 : Nat) (ha : st.errorActive = true) :
    ((StatusLED.update st cmd now).1.currentPercent = st.currentPercent ∧
     (StatusLED.update st cmd now).1.targetPercent = st.targetPercent ∧
     (StatusLED.update st cmd now).1.lastCommand = st.lastCommand ∧
     (StatusLED.update st cmd now).1.blinkingToZero = st.blinkingToZero ∧
     (StatusLED.update st cmd now).1.lastStepMs = st.lastStepMs ∧
     (StatusLED.update st cmd now).1.lastBlinkMs = st.lastBlinkMs ∧
     (StatusLED.update st cmd now).1.lastBlinkState = st.lastBlinkState) ∧
    (StatusLED.update (StatusLED.update st 50 n1).1 0 n2).1.blinkingToZero =
      st.blinkingToZero := by
  obtain ⟨f1, f2, f3, f4, f5, f6, f7, f8⟩ := update_error_frame st cmd now ha
  obtain ⟨_, _, _, g4, _, _, _, g8⟩ := update_error_frame st 50 n1 ha
  obtain ⟨_, _, _, k4, _, _, _, _⟩ :=
    update_error_frame (StatusLED.update st 50 n1).1 0 n2 g8
  exact ⟨⟨f1, f2, f3, f4, f5, f6, f7⟩, k4.trans g4⟩

/-- C10 witness: a concrete error-mode state fed the 50 → 0 pattern keeps
all gradient fields and does not set `blinkingToZero`. -/
theorem c10_error_mode_frame_witness :
    (StatusLED.State.mk 25 30 50 false true true false 7 8 9).errorActive = true ∧
    (StatusLED.update ⟨25, 30, 50, false, true, true, false, 7, 8, 9⟩ 0 600).1.lastCommand = 50 ∧
    (StatusLED.update
      (StatusLED.update ⟨25, 30, 50, false, true, true, false, 7, 8, 9⟩ 50 600).1
      0 1200).1.blinkingToZero = false :=
  ⟨rfl,
   (c10_error_mode_frame ⟨25, 30, 50, false, true, true, false, 7, 8, 9⟩ 0 600 600 1200 rfl).1.2.2.1,
   (c10_error_mode_frame ⟨25, 30, 50, false, true, true, false, 7, 8, 9⟩ 0 600 600 1200 rfl).2⟩

/-- C8 counterexample: in a normal-mode state whose `currentPercent` has
reached 0 with the 50 → 0 blink flag still set, `update` emits the 0%
gradient color red (255,0,0) — NOT a fully-off color — and it emits the same
color for both blink phases: the overlay stops mattering because of the
`currentPercent > 0` guard, not because the output is off. -/
theorem c8_color_at_zero_counterexample :
    (StatusLED.update ⟨0, 0, 0, true, true, false, false, 0, 0, 0⟩ 0 5).2 =
      (255, 0, 0) ∧
    (StatusLED.update ⟨0, 0, 0, true, true, false, false, 0, 0, 0⟩ 0 5).2 ≠
      (0, 0, 0) ∧
    (StatusLED.update ⟨0, 0, 0, true, false, false, false, 0, 0, 0⟩ 0 5).2 =
      (StatusLED.update ⟨0, 0, 0, true, true, false, false, 0, 0, 0⟩ 0 5).2 := by
  decide

/-- C8 (amended): in normal mode, an evaluated command transition sets
`blinkingToZero` exactly when the previous commanded value was 50 and the
new commanded value is 0 (any other evaluated transition clears it); and
once `currentPercent` has reached 0 the blink overlay no longer affects the
output — the emitted color is the 0% gradient color (255,0,0), identical for
every blink phase, because the overlay is guarded by `currentPercent > 0`. -/
theorem c8_blink_flag_amended :
    (∀ (st : StatusLED.State) (cmd : Int) (now : Nat),
        st.errorActive = false →
        constrainI cmd 0 100 ≠ st.targetPercent →
        (StatusLED.update st cmd now).1.blinkingToZero =
          decide (st.lastCommand = 50 ∧ constrainI cmd 0 100 = 0)) ∧
    (∀ (st : StatusLED.State) (cmd : Int) (now : Nat),
        st.errorActive = false → st.currentPercent = 0 →
        constrainI cmd 0 100 = 0 →
        (StatusLED.update st cmd now).2 = (StatusLED.MAX_BRIGHTNESS, 0, 0)) := by
  constructor
  · intro st cmd now ha hne
    simp only [StatusLED.update, ha, Bool.false_eq_true, if_false, if_pos hne]
    split_ifs <;> rfl
  · intro st cmd now ha hcp hc
    simp only [StatusLED.update, ha, Bool.false_eq_true, if_false, hc]
    by_cases ht : (0 : Int) ≠ st.targetPercent
    · rw [if_pos ht]
      dsimp only
      rw [hcp]
      by_cases hs : StatusLED.STEP_INTERVAL_MS ≤ elapsed32 now st.lastStepMs
      · rw [if_pos hs]
        try dsimp only
        simp [StatusLED.gradientColor, StatusLED.COLOR_TRANSITION_THRESHOLD,
          StatusLED.MAX_BRIGHTNESS]
      · rw [if_neg hs]
        try dsimp only
        simp [StatusLED.gradientColor, StatusLED.COLOR_TRANSITION_THRESHOLD,
          StatusLED.MAX_BRIGHTNESS]
    · rw [if_neg ht]
      push_neg at ht
      by_cases hs : StatusLED.STEP_INTERVAL_MS ≤ elapsed32 now st.lastStepMs
      · rw [if_pos hs]
        try dsimp only
        simp [hcp, ← ht, StatusLED.gradientColor, StatusLED.COLOR_TRANSITION_THRESHOLD,
          StatusLED.MAX_BRIGHTNESS]
      · rw [if_neg hs]
        try dsimp only
        simp [hcp, ← ht, StatusLED.gradientColor, StatusLED.COLOR_TRANSITION_THRESHOLD,
          StatusLED.MAX_BRIGHTNESS]

/-- C8 witness: a 50 → 0 transition (previous command 50, new command 0)
sets the flag, and a state resting at 0% emits red (255,0,0). -/
theorem c8_blink_flag_amended_witness :
    (StatusLED.State.mk 30 30 50 false false false false 0 0 0).errorActive = false ∧
    constrainI 0 0 100 ≠ (StatusLED.State.mk 30 30 50 false false false false 0 0 0).targetPercent ∧
    (StatusLED.update ⟨30, 30, 50, false, false, false, false, 0, 0, 0⟩ 0 5).1.blinkingToZero =
      decide ((StatusLED.State.mk 30 30 50 false false false false 0 0 0).lastCommand = 50 ∧
        constrainI 0 0 100 = 0) ∧
    (StatusLED.update ⟨0, 0, 0, true, true, false, false, 0, 0, 0⟩ 0 5).2 =
      (StatusLED.MAX_BRIGHTNESS, 0, 0) :=
  ⟨rfl, by decide,
   c8_blink_flag_amended.1 ⟨30, 30, 50, false, false, false, false, 0, 0, 0⟩ 0 5 rfl (by decide),
   c8_blink_flag_amended.2 ⟨0, 0, 0, true, true, false, false, 0, 0, 0⟩ 0 5 rfl rfl (by decide)⟩
